import Mathlib

/-!
Verification development for the rustodia contagion-sequence engine
(`src/main.rs`, `src/config.rs`).  Rust strings are modelled as `List Char`
(ASCII scope), machine integers as `Nat`, `f64` values as `ℝ`, `Duration`
as a `Nat` count of nanoseconds, and the shared atomic flags as explicit
state records with the reads of a flag drawn from a `Nat → Bool` stream
(the value returned by the n-th atomic load).
-/

-- ===========================================================================
-- Keycode model (device_query::Keycode, the variants relevant to the code:
-- all variants named in config.rs plus a representative sample of the rest
-- of the enum, with their derive(Debug) names)
-- ===========================================================================

inductive Keycode where
  | Space
  | A | B | C | D | E | F | G | H | I | J | K | L | M
  | N | O | P | Q | R | S | T | U | V | W | X | Y | Z
  | Key0 | Key1 | Key2 | Key3 | Key4 | Key5 | Key6 | Key7 | Key8 | Key9
  | F1 | F2 | F3 | F4 | F5 | F6 | F7 | F8 | F9 | F10 | F11 | F12
  | Dot
  | Escape | Enter | Tab | Backspace | CapsLock
  | LControl | RControl | LShift | RShift | LAlt | RAlt
  | Up | Down | Left | Right
  | Home | End | PageUp | PageDown | Insert | Delete
  | Grave | Minus | Equal | LeftBracket | RightBracket | BackSlash
  | Semicolon | Apostrophe | Comma | Slash
  deriving DecidableEq, Fintype

-- The string produced by Rust's derive(Debug) formatting of a Keycode value:
-- exactly the variant name.
def keycodeDebugStr (k : Keycode) : List Char :=
  match k with
  | .Space => "Space".toList
  | .A => "A".toList | .B => "B".toList | .C => "C".toList | .D => "D".toList
  | .E => "E".toList | .F => "F".toList | .G => "G".toList | .H => "H".toList
  | .I => "I".toList | .J => "J".toList | .K => "K".toList | .L => "L".toList
  | .M => "M".toList | .N => "N".toList | .O => "O".toList | .P => "P".toList
  | .Q => "Q".toList | .R => "R".toList | .S => "S".toList | .T => "T".toList
  | .U => "U".toList | .V => "V".toList | .W => "W".toList | .X => "X".toList
  | .Y => "Y".toList | .Z => "Z".toList
  | .Key0 => "Key0".toList | .Key1 => "Key1".toList | .Key2 => "Key2".toList
  | .Key3 => "Key3".toList | .Key4 => "Key4".toList | .Key5 => "Key5".toList
  | .Key6 => "Key6".toList | .Key7 => "Key7".toList | .Key8 => "Key8".toList
  | .Key9 => "Key9".toList
  | .F1 => "F1".toList | .F2 => "F2".toList | .F3 => "F3".toList
  | .F4 => "F4".toList | .F5 => "F5".toList | .F6 => "F6".toList
  | .F7 => "F7".toList | .F8 => "F8".toList | .F9 => "F9".toList
  | .F10 => "F10".toList | .F11 => "F11".toList | .F12 => "F12".toList
  | .Dot => "Dot".toList
  | .Escape => "Escape".toList | .Enter => "Enter".toList | .Tab => "Tab".toList
  | .Backspace => "Backspace".toList | .CapsLock => "CapsLock".toList
  | .LControl => "LControl".toList | .RControl => "RControl".toList
  | .LShift => "LShift".toList | .RShift => "RShift".toList
  | .LAlt => "LAlt".toList | .RAlt => "RAlt".toList
  | .Up => "Up".toList | .Down => "Down".toList
  | .Left => "Left".toList | .Right => "Right".toList
  | .Home => "Home".toList | .End => "End".toList
  | .PageUp => "PageUp".toList | .PageDown => "PageDown".toList
  | .Insert => "Insert".toList | .Delete => "Delete".toList
  | .Grave => "Grave".toList | .Minus => "Minus".toList
  | .Equal => "Equal".toList
  | .LeftBracket => "LeftBracket".toList | .RightBracket => "RightBracket".toList
  | .BackSlash => "BackSlash".toList
  | .Semicolon => "Semicolon".toList | .Apostrophe => "Apostrophe".toList
  | .Comma => "Comma".toList | .Slash => "Slash".toList

-- ASCII uppercasing of one character, modelling Rust str::to_uppercase on the
-- ASCII strings relevant here.
def asciiUpper : Char → Char
  | 'a' => 'A' | 'b' => 'B' | 'c' => 'C' | 'd' => 'D' | 'e' => 'E'
  | 'f' => 'F' | 'g' => 'G' | 'h' => 'H' | 'i' => 'I' | 'j' => 'J'
  | 'k' => 'K' | 'l' => 'L' | 'm' => 'M' | 'n' => 'N' | 'o' => 'O'
  | 'p' => 'P' | 'q' => 'Q' | 'r' => 'R' | 's' => 'S' | 't' => 'T'
  | 'u' => 'U' | 'v' => 'V' | 'w' => 'W' | 'x' => 'X' | 'y' => 'Y'
  | 'z' => 'Z'
  | c => c

-- Removal of every occurrence of "Keycode::" from a string, modelling
-- debug_str.replace("Keycode::", "") in keycode_to_string's wildcard arm.
-- The fuel argument starts at the string length; each step consumes at least
-- one character of the string and exactly one unit of fuel, so fuel 0 is
-- reached only on the empty string, where returning it unchanged is exact.
def removeKeycodeFuel : Nat → List Char → List Char
  | 0, l => l
  | _ + 1, [] => []
  | fuel + 1, c :: rest =>
    if ("Keycode::".toList).isPrefixOf (c :: rest) then
      removeKeycodeFuel fuel ((c :: rest).drop 9)
    else
      c :: removeKeycodeFuel fuel rest

def removeKeycodeOccurrences (l : List Char) : List Char :=
  removeKeycodeFuel l.length l

-- SharedConfig::keycode_to_string (config.rs lines 62-123).
def keycode_to_string (k : Keycode) : List Char :=
  match k with
  | .Space => "Space".toList
  | .A => "A".toList | .B => "B".toList | .C => "C".toList | .D => "D".toList
  | .E => "E".toList | .F => "F".toList | .G => "G".toList | .H => "H".toList
  | .I => "I".toList | .J => "J".toList | .K => "K".toList | .L => "L".toList
  | .M => "M".toList | .N => "N".toList | .O => "O".toList | .P => "P".toList
  | .Q => "Q".toList | .R => "R".toList | .S => "S".toList | .T => "T".toList
  | .U => "U".toList | .V => "V".toList | .W => "W".toList | .X => "X".toList
  | .Y => "Y".toList | .Z => "Z".toList
  | .Key0 => "0".toList | .Key1 => "1".toList | .Key2 => "2".toList
  | .Key3 => "3".toList | .Key4 => "4".toList | .Key5 => "5".toList
  | .Key6 => "6".toList | .Key7 => "7".toList | .Key8 => "8".toList
  | .Key9 => "9".toList
  | .F1 => "F1".toList | .F2 => "F2".toList | .F3 => "F3".toList
  | .F4 => "F4".toList | .F5 => "F5".toList | .F6 => "F6".toList
  | .F7 => "F7".toList | .F8 => "F8".toList | .F9 => "F9".toList
  | .F10 => "F10".toList | .F11 => "F11".toList | .F12 => "F12".toList
  | .Dot => ".".toList
  | k => removeKeycodeOccurrences (keycodeDebugStr k)

-- SharedConfig::keycode_from_string (config.rs lines 126-190).  The source
-- recurses on the tail after a "KEYCODE::" prefix; the tail is at least nine
-- characters shorter, so fuel equal to the string length runs out only on the
-- empty string, where the fallback Keycode.E coincides with the table miss.
def keycode_from_string_fuel : Nat → List Char → Keycode
  | 0, _ => Keycode.E
  | fuel + 1, s =>
    let upper := s.map asciiUpper
    if upper = "SPACE".toList then Keycode.Space
    else if upper = "A".toList then Keycode.A
    else if upper = "B".toList then Keycode.B
    else if upper = "C".toList then Keycode.C
    else if upper = "D".toList then Keycode.D
    else if upper = "E".toList then Keycode.E
    else if upper = "F".toList then Keycode.F
    else if upper = "G".toList then Keycode.G
    else if upper = "H".toList then Keycode.H
    else if upper = "I".toList then Keycode.I
    else if upper = "J".toList then Keycode.J
    else if upper = "K".toList then Keycode.K
    else if upper = "L".toList then Keycode.L
    else if upper = "M".toList then Keycode.M
    else if upper = "N".toList then Keycode.N
    else if upper = "O".toList then Keycode.O
    else if upper = "P".toList then Keycode.P
    else if upper = "Q".toList then Keycode.Q
    else if upper = "R".toList then Keycode.R
    else if upper = "S".toList then Keycode.S
    else if upper = "T".toList then Keycode.T
    else if upper = "U".toList then Keycode.U
    else if upper = "V".toList then Keycode.V
    else if upper = "W".toList then Keycode.W
    else if upper = "X".toList then Keycode.X
    else if upper = "Y".toList then Keycode.Y
    else if upper = "Z".toList then Keycode.Z
    else if upper = "0".toList then Keycode.Key0
    else if upper = "1".toList then Keycode.Key1
    else if upper = "2".toList then Keycode.Key2
    else if upper = "3".toList then Keycode.Key3
    else if upper = "4".toList then Keycode.Key4
    else if upper = "5".toList then Keycode.Key5
    else if upper = "6".toList then Keycode.Key6
    else if upper = "7".toList then Keycode.Key7
    else if upper = "8".toList then Keycode.Key8
    else if upper = "9".toList then Keycode.Key9
    else if upper = "F1".toList then Keycode.F1
    else if upper = "F2".toList then Keycode.F2
    else if upper = "F3".toList then Keycode.F3
    else if upper = "F4".toList then Keycode.F4
    else if upper = "F5".toList then Keycode.F5
    else if upper = "F6".toList then Keycode.F6
    else if upper = "F7".toList then Keycode.F7
    else if upper = "F8".toList then Keycode.F8
    else if upper = "F9".toList then Keycode.F9
    else if upper = "F10".toList then Keycode.F10
    else if upper = "F11".toList then Keycode.F11
    else if upper = "F12".toList then Keycode.F12
    else if upper = ".".toList ∨ upper = "PERIOD".toList ∨ upper = "DOT".toList then Keycode.Dot
    else if ("KEYCODE::".toList).isPrefixOf upper then
      keycode_from_string_fuel fuel (upper.drop 9)
    else Keycode.E

def keycode_from_string (s : List Char) : Keycode :=
  keycode_from_string_fuel s.length s

-- ===========================================================================
-- SharedConfig (config.rs lines 4-58) and Keybinds (main.rs lines 24-34)
-- ===========================================================================

structure SharedConfig where
  fps : ℝ
  jump_delay_ms : ℝ
  aim_melee_delay_ms : Nat
  melee_hold_time_ms : Nat
  use_emote_formula : Bool
  emote_preparation_delay_manual_ms : Nat
  rapid_fire_duration_ms : Nat
  rapid_fire_click_delay_ms : Nat
  sequence_end_delay_ms : Nat
  loop_delay_ms : Nat
  rapid_click_count : Nat
  rapid_click_delay_ms : Nat
  melee_key : List Char
  jump_key : List Char
  emote_key : List Char
  rapid_click_key : List Char
  aim_button : Nat
  fire_button : Nat
  macro_button : Nat
  enable_macro_alt : Bool
  macro_alt_button : Nat

-- Default::default for SharedConfig (config.rs lines 32-58).
def SharedConfig.defaultConfig : SharedConfig :=
  { fps := 160
    jump_delay_ms := 1100
    aim_melee_delay_ms := 25
    melee_hold_time_ms := 50
    use_emote_formula := true
    emote_preparation_delay_manual_ms := 100
    rapid_fire_duration_ms := 230
    rapid_fire_click_delay_ms := 1
    sequence_end_delay_ms := 50
    loop_delay_ms := 1
    rapid_click_count := 10
    rapid_click_delay_ms := 50
    melee_key := "E".toList
    jump_key := "Space".toList
    emote_key := ".".toList
    rapid_click_key := "J".toList
    aim_button := 2
    fire_button := 1
    macro_button := 8
    enable_macro_alt := true
    macro_alt_button := 9 }

structure Keybinds where
  melee : Keycode
  jump : Keycode
  aim : Nat
  fire : Nat
  emote : Keycode
  macro_button : Nat
  macro_alt : Option Nat
  rapid_click : Keycode

-- SharedConfig::to_keybinds (config.rs lines 193-204).
def SharedConfig.to_keybinds (c : SharedConfig) : Keybinds :=
  { melee := keycode_from_string c.melee_key
    jump := keycode_from_string c.jump_key
    aim := c.aim_button
    fire := c.fire_button
    emote := keycode_from_string c.emote_key
    macro_button := c.macro_button
    macro_alt := if c.enable_macro_alt then some c.macro_alt_button else none
    rapid_click := keycode_from_string c.rapid_click_key }

-- SharedConfig::emote_preparation_delay (config.rs lines 211-218), reduced to
-- the whole-millisecond count the Duration is built from.  The f64 expression
-- (-26.0 * fps.ln() + 245.0).max(0.0) is modelled over ℝ and the `as u64`
-- cast is the floor of that non-negative value.
noncomputable def SharedConfig.emote_preparation_delay (c : SharedConfig) : Nat :=
  if c.use_emote_formula then
    (Int.floor (max (-26 * Real.log c.fps + 245) 0)).toNat
  else
    c.emote_preparation_delay_manual_ms

-- SharedConfig::double_jump_delay (config.rs lines 207-209), in nanoseconds:
-- Duration::from_secs_f64(jump_delay_ms / fps / 1000.0) rounded to whole ns.
noncomputable def SharedConfig.double_jump_delay (c : SharedConfig) : Nat :=
  (round (c.jump_delay_ms / c.fps / 1000 * 1000000000)).toNat

-- ===========================================================================
-- Enigo-side input model (main.rs lines 228-291)
-- ===========================================================================

-- enigo::Key values the code can produce (PrecomputedKeys::from_keybinds).
inductive EKey where
  | space
  | unicode (c : Char)
  deriving DecidableEq

-- enigo::Button values the code can produce (BUTTON_LOOKUP / button_from_index).
inductive EButton where
  | left
  | right
  | middle
  deriving DecidableEq

structure PrecomputedKeys where
  jump : EKey
  melee : EKey
  emote : EKey
  rapid_click : EKey
  deriving DecidableEq

-- PrecomputedKeys::from_keybinds (main.rs lines 238-259).
def PrecomputedKeys.from_keybinds (kb : Keybinds) : PrecomputedKeys :=
  { jump := match kb.jump with
      | Keycode.Space => EKey.space
      | _ => EKey.unicode ' '
    melee := match kb.melee with
      | Keycode.E => EKey.unicode 'e'
      | _ => EKey.unicode ' '
    emote := match kb.emote with
      | Keycode.Dot => EKey.unicode '.'
      | _ => EKey.unicode ' '
    rapid_click := match kb.rapid_click with
      | Keycode.J => EKey.unicode 'j'
      | _ => EKey.unicode ' ' }

-- BUTTON_LOOKUP (main.rs lines 264-275).
def BUTTON_LOOKUP : List (Option EButton) :=
  [none, some EButton.left, some EButton.right, some EButton.middle,
   none, none, none, none, some EButton.left, some EButton.left]

-- button_from_index (main.rs lines 277-291).
def button_from_index (idx : Nat) : EButton :=
  if idx = 8 then EButton.left
  else if idx = 9 then EButton.left
  else ((BUTTON_LOOKUP.getD idx none).getD EButton.left)

-- ===========================================================================
-- precise_sleep (main.rs lines 66-87).  Durations are nanosecond counts; the
-- returned action list records the coarse thread::sleep (whose overshoot is
-- the scheduler's) followed by the spin loop that exits only at the deadline.
-- ===========================================================================

inductive SleepAct where
  | coarse (ns : Nat)
  | spinUntil (deadline : Nat)
  deriving DecidableEq

def precise_sleep (d : Nat) : List SleepAct :=
  if d = 0 then []
  else
    (if 40 < d / 1000000 then
      (if d - 20000000 ≠ 0 then [SleepAct.coarse (d - 20000000)] else [])
     else []) ++ [SleepAct.spinUntil d]

-- Wall-clock semantics of a sleep action list started at time t: a coarse
-- sleep of c ns advances the clock by c plus a scheduler overshoot j ≥ 0; the
-- spin loop returns exactly when the clock reaches the deadline.
def runSleep (j : Nat) : Nat → List SleepAct → Nat
  | t, [] => t
  | t, SleepAct.coarse c :: rest => runSleep j (t + c + j) rest
  | t, SleepAct.spinUntil dl :: rest => runSleep j (max t dl) rest

-- ===========================================================================
-- Shared state (main.rs lines 47-63) and the two monitor loops.  One system
-- step is one loop iteration of one thread; atomics make each individual
-- load/store coherent, and a loop body's loads are modelled at the values
-- they actually read at the top of that iteration.
-- ===========================================================================

structure SysState where
  running : Bool
  macroEnabled : Bool
  warframeActive : Bool
  rapidClicking : Bool
  lastMacroPressed : Bool
  lastRapidClickPressed : Bool
  focusLast : Bool
  deriving DecidableEq

-- State::new (main.rs lines 55-62) together with the initial values of the
-- poller locals (main.rs lines 485-486) and the focus monitor local
-- last_state = false (main.rs line 444).
def initState : SysState :=
  { running := false
    macroEnabled := true
    warframeActive := false
    rapidClicking := false
    lastMacroPressed := false
    lastRapidClickPressed := false
    focusLast := false }

-- One iteration of the input-poller loop in run_macro (main.rs lines
-- 488-556).  Inputs are what the device snapshot contributed this iteration:
-- whether F11 is down, whether the rapid-click key is down, and the computed
-- macro_pressed disjunction.  Returns the new state plus whether a sequence
-- task and a rapid-click task were spawned this iteration.
def pollStep (f11 rapidKey macroPressed : Bool) (s : SysState) : SysState × Bool × Bool :=
  let me := if f11 then !s.macroEnabled else s.macroEnabled
  if s.warframeActive then
    let spawnRapid := rapidKey && !s.lastRapidClickPressed && me
    if macroPressed && !s.lastMacroPressed && !s.running && me then
      ({ s with
          macroEnabled := me
          running := true
          lastMacroPressed := macroPressed
          lastRapidClickPressed := rapidKey }, true, spawnRapid)
    else if !macroPressed && s.lastMacroPressed then
      ({ s with
          macroEnabled := me
          running := false
          lastMacroPressed := macroPressed
          lastRapidClickPressed := rapidKey }, false, spawnRapid)
    else
      ({ s with
          macroEnabled := me
          lastMacroPressed := macroPressed
          lastRapidClickPressed := rapidKey }, false, spawnRapid)
  else
    ({ s with
        macroEnabled := me
        lastMacroPressed := false
        lastRapidClickPressed := false }, false, false)

-- One iteration of background_app_check (main.rs lines 445-462), given the
-- probe result current_state.  The Bool result records whether the
-- lost-focus notification was printed this iteration.
def focusStep (cur : Bool) (s : SysState) : SysState × Bool :=
  if cur ≠ s.focusLast then
    if !cur && s.running then
      ({ s with warframeActive := cur, running := false, focusLast := cur }, true)
    else
      ({ s with warframeActive := cur, focusLast := cur }, false)
  else
    ({ s with warframeActive := cur }, false)

-- The system's step alphabet: a poller iteration, a focus-monitor iteration,
-- a rapid-click task's write to rapid_clicking (its only shared-state write,
-- main.rs lines 414 and 419/439), and any step of a contagion sequence task,
-- which stores to no shared flag at all (main.rs lines 309-410 contain no
-- store to running, macro_enabled or warframe_active).
inductive SysStep where
  | poll (f11 rapidKey macroPressed : Bool)
  | focus (cur : Bool)
  | rapidFlag (b : Bool)
  | seqStep
  deriving DecidableEq

def sysStep : SysStep → SysState → SysState
  | SysStep.poll a b c, s => (pollStep a b c s).1
  | SysStep.focus cur, s => (focusStep cur s).1
  | SysStep.rapidFlag b, s => { s with rapidClicking := b }
  | SysStep.seqStep, s => s

-- macro_pressed (main.rs lines 521-528): main macro button down, or the alt
-- button configured and down.  buttons models mouse.button_pressed.
def macroPressedOf (kb : Keybinds) (buttons : List Bool) : Bool :=
  (decide (kb.macro_button < buttons.length) && buttons.getD kb.macro_button false)
  || (kb.macro_alt.isSome &&
      match kb.macro_alt with
      | some alt => decide (alt < buttons.length) && buttons.getD alt false
      | none => false)

-- Successive poller iterations over a list of mouse snapshots, with F11 and
-- the rapid-click key up throughout; records (running after the iteration,
-- whether a sequence task was spawned in the iteration).
def pollTrace (kb : Keybinds) : SysState → List (List Bool) → List (Bool × Bool)
  | _, [] => []
  | s, btns :: rest =>
    let r := pollStep false false (macroPressedOf kb btns) s
    (r.1.running, r.2.1) :: pollTrace kb r.1 rest

-- Number of false→true edges of a boolean signal, given the value preceding
-- the list.
def risingEdges (prev : Bool) : List Bool → Nat
  | [] => 0
  | b :: rest => (if b && !prev then 1 else 0) + risingEdges b rest

-- Number of true→false edges of a boolean signal.
def fallingEdges (prev : Bool) : List Bool → Nat
  | [] => 0
  | b :: rest => (if !b && prev then 1 else 0) + fallingEdges b rest

def countTrue : List Bool → Nat
  | [] => 0
  | b :: rest => (if b then 1 else 0) + countTrue rest

-- ===========================================================================
-- Event traces of the sequence executor and the rapid-click burst.  An
-- enigo key/button event takes no model time; precise_sleep d advances the
-- model clock by d nanoseconds.  Reads of the running/macro_enabled atomics
-- are drawn from a stream indexed by how many loads have happened so far in
-- the task.
-- ===========================================================================

inductive Ev where
  | keyPress (k : EKey)
  | keyRelease (k : EKey)
  | btnPress (b : EButton)
  | btnRelease (b : EButton)
  | sleep (ns : Nat)
  deriving DecidableEq

-- The timing and binding data execute_contagion_sequence draws from its
-- config snapshot through get_durations_from_config (main.rs lines 294-305),
-- PrecomputedKeys and button_from_index; delays in nanoseconds, the
-- rapid-fire limit in milliseconds as in the source comparison.
structure SeqParams where
  keys : PrecomputedKeys
  aim_button : EButton
  fire_button : EButton
  double_jump_delay : Nat
  aim_melee_delay : Nat
  melee_hold_time : Nat
  emote_prep_delay : Nat
  rapid_fire_click_delay : Nat
  sequence_end_delay : Nat
  loop_delay : Nat
  rapid_fire_duration_ms : Nat
  deriving DecidableEq

-- The rapid-fire loop (main.rs lines 355-367): while running, click the fire
-- button, sleep the click delay, and break once the elapsed time (the sum of
-- the sleeps since the burst started) exceeds the millisecond limit.  Each
-- iteration adds the click delay to elapsed, so for a click delay of at
-- least 1 ns the loop ends within limit*1000000 + 2 iterations; the fuel in
-- the caller is chosen accordingly and the fuel-0 branch is unreachable there.
def rapidFireAux (running : Nat → Bool) (fire : EButton) (d limitMs : Nat) :
    Nat → Nat → Nat → List Ev × Nat
  | 0, t, _ => ([], t)
  | fuel + 1, t, elapsed =>
    if running t then
      let elapsed1 := elapsed + d
      if limitMs < elapsed1 / 1000000 then
        ([Ev.btnPress fire, Ev.btnRelease fire, Ev.sleep d], t + 1)
      else
        let r := rapidFireAux running fire d limitMs fuel (t + 1) elapsed1
        (Ev.btnPress fire :: Ev.btnRelease fire :: Ev.sleep d :: r.1, r.2)
    else ([], t + 1)

-- The events of stages 1-4 (double jump, aim+melee, emote preparation wait,
-- two emote taps; main.rs lines 324-352), which contain no load of running.
def stageOneToFour (p : SeqParams) : List Ev :=
  [Ev.keyPress p.keys.jump, Ev.sleep p.double_jump_delay, Ev.keyRelease p.keys.jump,
   Ev.keyPress p.keys.jump, Ev.sleep p.double_jump_delay, Ev.keyRelease p.keys.jump,
   Ev.btnPress p.aim_button, Ev.sleep p.aim_melee_delay,
   Ev.keyPress p.keys.melee, Ev.sleep p.melee_hold_time, Ev.keyRelease p.keys.melee,
   Ev.btnRelease p.aim_button,
   Ev.sleep p.emote_prep_delay,
   Ev.keyPress p.keys.emote, Ev.sleep p.double_jump_delay, Ev.keyRelease p.keys.emote,
   Ev.keyPress p.keys.emote, Ev.sleep p.double_jump_delay, Ev.keyRelease p.keys.emote]

-- execute_contagion_sequence (main.rs lines 309-373).  The loads of running
-- are: one on entry (line 317), one per rapid-fire iteration (line 358), and
-- one before the end-of-sequence delay (line 370).  Returns the event trace
-- and the index after the last load consumed.
def execute_contagion_sequence (running : Nat → Bool) (p : SeqParams) (t : Nat) :
    List Ev × Nat :=
  if running t then
    let burst := rapidFireAux running p.fire_button p.rapid_fire_click_delay
      p.rapid_fire_duration_ms (p.rapid_fire_duration_ms * 1000000 + 2) (t + 1) 0
    if running burst.2 then
      (stageOneToFour p ++ burst.1 ++ [Ev.sleep p.sequence_end_delay], burst.2 + 1)
    else
      (stageOneToFour p ++ burst.1, burst.2 + 1)
  else ([], t + 1)

-- The cleanup block of contagion_loop (main.rs lines 406-409).
def cleanupEvents (p : SeqParams) : List Ev :=
  [Ev.keyRelease p.keys.melee, Ev.keyRelease p.keys.emote,
   Ev.btnRelease p.aim_button, Ev.btnRelease p.fire_button]

-- The while-running loop of contagion_loop (main.rs lines 383-397): guard
-- load, one sequence, then the loop delay.  fuel bounds the number of
-- iterations of this model run; the guard consumes one load per iteration.
def contagionLoopAux (running : Nat → Bool) (p : SeqParams) :
    Nat → Nat → List Ev × Nat
  | 0, t => ([], t)
  | fuel + 1, t =>
    if running t then
      let it := execute_contagion_sequence running p (t + 1)
      let rest := contagionLoopAux running p fuel it.2
      (it.1 ++ Ev.sleep p.loop_delay :: rest.1, rest.2)
    else ([], t + 1)

-- contagion_loop (main.rs lines 376-410): if the Enigo injector cannot be
-- acquired the task returns before any stage; otherwise it runs the loop and
-- then always executes the cleanup releases.
def contagion_loop (ok : Bool) (running : Nat → Bool) (p : SeqParams) (fuel : Nat) :
    List Ev :=
  if ok then (contagionLoopAux running p fuel 0).1 ++ cleanupEvents p
  else []

-- ===========================================================================
-- execute_rapid_click (main.rs lines 413-440)
-- ===========================================================================

-- The click loop (main.rs lines 429-437): for each of the count cycles, stop
-- if macro_enabled reads false, else click the fire button and sleep.  i is
-- the index of the next macro_enabled load.
def rapidClickLoop (enabled : Nat → Bool) (fire : EButton) (d : Nat) :
    Nat → Nat → List Ev
  | _, 0 => []
  | i, n + 1 =>
    if enabled i then
      Ev.btnPress fire :: Ev.btnRelease fire :: Ev.sleep d ::
        rapidClickLoop enabled fire d (i + 1) n
    else []

-- execute_rapid_click: stores rapid_clicking := true, acquires the injector
-- (ok), on failure stores rapid_clicking := false and returns; otherwise
-- snapshots the config, runs the click loop, and stores
-- rapid_clicking := false.  Returns the event trace and the final value of
-- rapid_clicking.
def execute_rapid_click (ok : Bool) (enabled : Nat → Bool) (c : SharedConfig) :
    List Ev × Bool :=
  if ok then
    (rapidClickLoop enabled (button_from_index c.to_keybinds.fire)
      (c.rapid_click_delay_ms * 1000000) 0 c.rapid_click_count, false)
  else ([], false)

def pressCount (b : EButton) : List Ev → Nat
  | [] => 0
  | Ev.btnPress b' :: rest => (if b' = b then 1 else 0) + pressCount b rest
  | _ :: rest => pressCount b rest

def releaseCount (b : EButton) : List Ev → Nat
  | [] => 0
  | Ev.btnRelease b' :: rest => (if b' = b then 1 else 0) + releaseCount b rest
  | _ :: rest => releaseCount b rest

-- ===========================================================================
-- Helper lemmas
-- ===========================================================================

lemma rapidClickLoop_pressCount_le (enabled : Nat → Bool) (fire : EButton) (d : Nat) :
    ∀ n i, pressCount fire (rapidClickLoop enabled fire d i n) ≤ n := by
  intro n
  induction n with
  | zero => intro i; simp [rapidClickLoop, pressCount]
  | succ m ih =>
    intro i
    by_cases h : enabled i
    · have := ih (i + 1)
      simp only [rapidClickLoop, h, if_true]
      simp [pressCount]
      omega
    · simp [rapidClickLoop, h, pressCount]

lemma rapidClickLoop_pressCount_full (enabled : Nat → Bool) (fire : EButton) (d : Nat) :
    ∀ n i, (∀ j, j < n → enabled (i + j) = true) →
      pressCount fire (rapidClickLoop enabled fire d i n) = n
      ∧ releaseCount fire (rapidClickLoop enabled fire d i n) = n := by
  intro n
  induction n with
  | zero => intro i _; simp [rapidClickLoop, pressCount, releaseCount]
  | succ m ih =>
    intro i h
    have hi : enabled i = true := by
      have := h 0 (Nat.succ_pos m)
      simpa using this
    have hrest := ih (i + 1) (fun j hj => by
      have := h (j + 1) (Nat.succ_lt_succ hj)
      simpa [Nat.add_assoc, Nat.add_comm 1 j] using this)
    simp only [rapidClickLoop, hi, if_true]
    simp [pressCount, releaseCount, hrest.1, hrest.2]
    omega

lemma rapidClickLoop_pressCount_stop (enabled : Nat → Bool) (fire : EButton) (d : Nat) :
    ∀ n i j, j < n → enabled (i + j) = false →
      pressCount fire (rapidClickLoop enabled fire d i n) ≤ j := by
  intro n
  induction n with
  | zero => intro i j hj; omega
  | succ m ih =>
    intro i j hj hoff
    by_cases hi : enabled i
    · have hj0 : j ≠ 0 := by
        intro h0
        rw [h0, Nat.add_zero] at hoff
        rw [hi] at hoff
        exact Bool.noConfusion hoff
      have hj1 : j - 1 < m := by omega
      have hoff1 : enabled ((i + 1) + (j - 1)) = false := by
        have heq : (i + 1) + (j - 1) = i + j := by omega
        rw [heq]
        exact hoff
      have := ih (i + 1) (j - 1) hj1 hoff1
      simp only [rapidClickLoop, hi, if_true]
      simp [pressCount]
      omega
    · simp [rapidClickLoop, hi, pressCount]

-- ===========================================================================
-- Claims C5, C6, C7, C8
-- ===========================================================================

/-- C5: a rapid-click burst performs exactly rapid_click_count press+release
pairs on the fire button when macro_enabled reads true at every of the count
checks, at most j pairs when the check at index j < count reads false (so
strictly fewer than count), never more than rapid_click_count pairs, and on
every exit path — including injector-acquisition failure — leaves
rapid_clicking equal to false. -/
theorem c5_rapid_click_burst :
    (∀ (enabled : Nat → Bool) (c : SharedConfig),
      (∀ i, i < c.rapid_click_count → enabled i = true) →
      pressCount (button_from_index c.to_keybinds.fire)
          (execute_rapid_click true enabled c).1 = c.rapid_click_count
      ∧ releaseCount (button_from_index c.to_keybinds.fire)
          (execute_rapid_click true enabled c).1 = c.rapid_click_count)
    ∧ (∀ (enabled : Nat → Bool) (c : SharedConfig),
        pressCount (button_from_index c.to_keybinds.fire)
          (execute_rapid_click true enabled c).1 ≤ c.rapid_click_count)
    ∧ (∀ (enabled : Nat → Bool) (c : SharedConfig) (j : Nat),
        j < c.rapid_click_count → enabled j = false →
        pressCount (button_from_index c.to_keybinds.fire)
          (execute_rapid_click true enabled c).1 ≤ j)
    ∧ (∀ (ok : Bool) (enabled : Nat → Bool) (c : SharedConfig),
        (execute_rapid_click ok enabled c).2 = false) := by
  refine ⟨?_, ?_, ?_, ?_⟩
  · intro enabled c h
    have := rapidClickLoop_pressCount_full enabled
      (button_from_index c.to_keybinds.fire) (c.rapid_click_delay_ms * 1000000)
      c.rapid_click_count 0 (by simpa using h)
    simpa [execute_rapid_click] using this
  · intro enabled c
    have := rapidClickLoop_pressCount_le enabled
      (button_from_index c.to_keybinds.fire) (c.rapid_click_delay_ms * 1000000)
      c.rapid_click_count 0
    simpa [execute_rapid_click] using this
  · intro enabled c j hj hoff
    have := rapidClickLoop_pressCount_stop enabled
      (button_from_index c.to_keybinds.fire) (c.rapid_click_delay_ms * 1000000)
      c.rapid_click_count 0 j hj (by simpa using hoff)
    simpa [execute_rapid_click] using this
  · intro ok enabled c
    by_cases h : ok <;> simp [execute_rapid_click, h]

/-- C5 witness: with the default configuration (rapid_click_count = 10), an
always-true macro_enabled stream gives exactly 10 press/release pairs; a
stream that goes false at the fourth check gives at most 3; the final
rapid_clicking flag is false on the failure path. -/
theorem c5_rapid_click_burst_witness :
    (pressCount (button_from_index SharedConfig.defaultConfig.to_keybinds.fire)
        (execute_rapid_click true (fun _ => true) SharedConfig.defaultConfig).1 = 10
      ∧ releaseCount (button_from_index SharedConfig.defaultConfig.to_keybinds.fire)
        (execute_rapid_click true (fun _ => true) SharedConfig.defaultConfig).1 = 10)
    ∧ pressCount (button_from_index SharedConfig.defaultConfig.to_keybinds.fire)
        (execute_rapid_click true (fun t => t < 3) SharedConfig.defaultConfig).1 ≤ 3
    ∧ (execute_rapid_click false (fun _ => true) SharedConfig.defaultConfig).2 = false :=
  ⟨c5_rapid_click_burst.1 (fun _ => true) SharedConfig.defaultConfig (fun i _ => rfl),
   c5_rapid_click_burst.2.2.1 (fun t => t < 3) SharedConfig.defaultConfig 3
     (by decide) (by decide),
   c5_rapid_click_burst.2.2.2 false (fun _ => true) SharedConfig.defaultConfig⟩

/-- C6: on every exit of the sequence task in which the input-injection
capability was acquired — whatever the running stream did, including going
false mid-stage — the emitted trace ends with release events for the melee
key, emote key, aim button and fire button, after every other event; when the
injector cannot be acquired, the task exits without emitting anything. -/
theorem c6_cleanup_releases :
    ∀ (running : Nat → Bool) (p : SeqParams) (fuel : Nat),
      (∃ pre, contagion_loop true running p fuel =
        pre ++ [Ev.keyRelease p.keys.melee, Ev.keyRelease p.keys.emote,
                Ev.btnRelease p.aim_button, Ev.btnRelease p.fire_button])
      ∧ contagion_loop false running p fuel = [] := by
  intro running p fuel
  exact ⟨⟨(contagionLoopAux running p fuel 0).1, rfl⟩, rfl⟩

/-- C7: precise_sleep returns immediately on a zero duration; for durations
of at most ~40 ms (as_millis ≤ 40) it busy-waits the entire duration; above
~40 ms it performs a coarse blocking sleep of duration − 20 ms followed by
the busy-wait; and under the clock semantics (coarse sleeps may overshoot by
any j ≥ 0, the spin loop exits at the deadline) it never returns before
start + d. -/
theorem c7_precise_sleep :
    precise_sleep 0 = []
    ∧ (∀ d, 0 < d → d / 1000000 ≤ 40 → precise_sleep d = [SleepAct.spinUntil d])
    ∧ (∀ d, 40 < d / 1000000 →
        precise_sleep d = [SleepAct.coarse (d - 20000000), SleepAct.spinUntil d])
    ∧ (∀ d j, d ≤ runSleep j 0 (precise_sleep d)) := by
  refine ⟨by simp [precise_sleep], ?_, ?_, ?_⟩
  · intro d hd h40
    have hne : d ≠ 0 := by omega
    simp [precise_sleep, hne, Nat.not_lt.mpr h40]
  · intro d h40
    have hge : 41000000 ≤ d := by omega
    have hne : d ≠ 0 := by omega
    have hsub : d - 20000000 ≠ 0 := by omega
    simp [precise_sleep, hne, h40, hsub]
  · intro d j
    by_cases hz : d = 0
    · simp [precise_sleep, hz, runSleep]
    · by_cases h40 : 40 < d / 1000000
      · have hsub : d - 20000000 ≠ 0 := by omega
        simp [precise_sleep, hz, h40, hsub, runSleep]
      · simp [precise_sleep, hz, h40, runSleep]

/-- C7 witness: a 5 ms request spins the whole duration, a 100 ms request
coarse-sleeps 80 ms then spins, and both finish no earlier than their
deadline. -/
theorem c7_precise_sleep_witness :
    precise_sleep 5000000 = [SleepAct.spinUntil 5000000]
    ∧ precise_sleep 100000000 =
        [SleepAct.coarse 80000000, SleepAct.spinUntil 100000000]
    ∧ 100000000 ≤ runSleep 7 0 (precise_sleep 100000000) :=
  ⟨c7_precise_sleep.2.1 5000000 (by decide) (by decide),
   c7_precise_sleep.2.2.1 100000000 (by decide),
   c7_precise_sleep.2.2.2 100000000 7⟩

/-- C8: every focus-monitor iteration writes warframe_active equal to the
value the probe just returned, also when it is unchanged; when the probed
value goes from true (last_state) to false while running is true, that same
iteration clears running and emits the lost-focus notification; and the
monitor's last_state starts out false. -/
theorem c8_focus_monitor :
    (∀ (cur : Bool) (s : SysState), ((focusStep cur s).1).warframeActive = cur)
    ∧ (∀ (cur : Bool) (s : SysState), cur = false → s.focusLast = true →
        s.running = true →
        ((focusStep cur s).1).running = false ∧ (focusStep cur s).2 = true)
    ∧ initState.focusLast = false := by
  refine ⟨?_, ?_, rfl⟩
  · intro cur s
    simp only [focusStep]
    split_ifs <;> rfl
  · intro cur s hcur hlast hrun
    subst hcur
    simp [focusStep, hlast, hrun]

/-- C8 witness: from a state with focus previously held and running true, a
false probe result clears running and notifies. -/
theorem c8_focus_monitor_witness :
    ((focusStep false { initState with focusLast := true, running := true, warframeActive := true }).1).running = false
    ∧ (focusStep false { initState with focusLast := true, running := true, warframeActive := true }).2 = true :=
  c8_focus_monitor.2.1 false
    { initState with focusLast := true, running := true, warframeActive := true }
    rfl rfl rfl

-- ===========================================================================
-- Claim C2
-- ===========================================================================

/-- C2: across the whole step alphabet of the system — poller iterations,
focus-monitor iterations, rapid-click flag writes, sequence-task steps — the
running flag can change from false to true only in a poller step, and in that
step warframe_active was true and macro_enabled (at its post-F11-toggle
value, the one the guard loaded) is true at the moment of the transition. -/
theorem c2_running_rise_only_in_poll (st : SysStep) (s : SysState)
    (h0 : s.running = false) (h1 : (sysStep st s).running = true) :
    (∃ a b c, st = SysStep.poll a b c)
    ∧ s.warframeActive = true ∧ (sysStep st s).macroEnabled = true := by
  obtain ⟨r, me, wa, rc, lm, lr, fl⟩ := s
  cases st with
  | poll a b c =>
    refine ⟨⟨a, b, c, rfl⟩, ?_, ?_⟩ <;>
      cases wa <;> cases a <;> cases c <;> cases lm <;> cases me <;> cases r <;>
        simp_all [sysStep, pollStep]
  | focus cur =>
    exfalso
    cases cur <;> cases fl <;> cases r <;> simp_all [sysStep, focusStep]
  | rapidFlag b =>
    exfalso
    cases r <;> simp_all [sysStep]
  | seqStep =>
    exfalso
    cases r <;> simp_all [sysStep]

/-- C2 witness: from the initial state with focus gained, a poller step with
the macro button newly pressed raises running, and the theorem's conclusion
holds there. -/
theorem c2_running_rise_only_in_poll_witness :
    ({ initState with warframeActive := true } : SysState).running = false
    ∧ (sysStep (SysStep.poll false false true) { initState with warframeActive := true }).running = true
    ∧ ((∃ a b c, SysStep.poll false false true = SysStep.poll a b c)
       ∧ ({ initState with warframeActive := true } : SysState).warframeActive = true
       ∧ (sysStep (SysStep.poll false false true) { initState with warframeActive := true }).macroEnabled = true) :=
  ⟨rfl, by decide,
   c2_running_rise_only_in_poll (SysStep.poll false false true)
     { initState with warframeActive := true } rfl (by decide)⟩

-- ===========================================================================
-- Claim C4
-- ===========================================================================

-- Behaviour of one poller iteration while the host stays focused, the F11
-- and rapid-click keys are up, and running mirrors the previous pressed
-- value: running and last_macro_state both become the current pressed value,
-- and a sequence task is spawned exactly on a rising edge of pressed.
lemma pollStep_held_scenario (p : Bool) (s : SysState)
    (hwa : s.warframeActive = true) (hme : s.macroEnabled = true)
    (hinv : s.running = s.lastMacroPressed) :
    pollStep false false p s =
      ({ s with running := p, lastMacroPressed := p, lastRapidClickPressed := false },
       p && !s.lastMacroPressed, false) := by
  obtain ⟨r, me, wa, rc, lm, lr, fl⟩ := s
  cases p <;> cases lm <;> simp_all [pollStep]

/-- C4: over any run of poller iterations in which warframe_active and
macro_enabled stay true (F11 and the rapid-click key up, arbitrary mouse
snapshots), and running mirrors the trigger's previous state, the running
flag shows exactly one false→true edge per rising edge of the computed
macro-trigger signal (main or configured alt button), exactly one true→false
edge per falling edge, and exactly one sequence task spawned per rising
edge. -/
theorem c4_one_edge_per_press (kb : Keybinds) (s : SysState)
    (inputs : List (List Bool))
    (hwa : s.warframeActive = true) (hme : s.macroEnabled = true)
    (hinv : s.running = s.lastMacroPressed) :
    risingEdges s.running ((pollTrace kb s inputs).map Prod.fst)
      = risingEdges s.lastMacroPressed (inputs.map (macroPressedOf kb))
    ∧ fallingEdges s.running ((pollTrace kb s inputs).map Prod.fst)
      = fallingEdges s.lastMacroPressed (inputs.map (macroPressedOf kb))
    ∧ countTrue ((pollTrace kb s inputs).map Prod.snd)
      = risingEdges s.lastMacroPressed (inputs.map (macroPressedOf kb)) := by
  induction inputs generalizing s with
  | nil => simp [pollTrace, risingEdges, fallingEdges, countTrue]
  | cons btns rest ih =>
    have hstep := pollStep_held_scenario (macroPressedOf kb btns) s hwa hme hinv
    have hwa' : (pollStep false false (macroPressedOf kb btns) s).1.warframeActive = true := by
      rw [hstep]
      exact hwa
    have hme' : (pollStep false false (macroPressedOf kb btns) s).1.macroEnabled = true := by
      rw [hstep]
      exact hme
    have hinv' : (pollStep false false (macroPressedOf kb btns) s).1.running
        = (pollStep false false (macroPressedOf kb btns) s).1.lastMacroPressed := by
      rw [hstep]
    have hrun' : (pollStep false false (macroPressedOf kb btns) s).1.running
        = macroPressedOf kb btns := by
      rw [hstep]
    have hspawn : (pollStep false false (macroPressedOf kb btns) s).2.1
        = (macroPressedOf kb btns && !s.lastMacroPressed) := by
      rw [hstep]
    obtain ⟨ih1, ih2, ih3⟩ := ih (pollStep false false (macroPressedOf kb btns) s).1
      hwa' hme' hinv'
    rw [← hinv', hrun'] at ih1 ih2 ih3
    refine ⟨?_, ?_, ?_⟩
    · simp only [pollTrace, List.map_cons, risingEdges, hrun', hspawn, hinv, ih1]
    · simp only [pollTrace, List.map_cons, fallingEdges, hrun', hspawn, hinv, ih2]
    · simp only [pollTrace, List.map_cons, countTrue, hrun', hspawn, hinv, ih3, risingEdges]

/-- C4 witness: with the default bindings (side button 8, alt 9), a run of
three poller iterations — trigger held, held, released — while the host is
focused shows exactly one rising and one falling running edge and one
spawned task, matching the trigger edges. -/
theorem c4_one_edge_per_press_witness :
    risingEdges ({ initState with warframeActive := true } : SysState).running
        ((pollTrace SharedConfig.defaultConfig.to_keybinds
          { initState with warframeActive := true }
          [[false, false, false, false, false, false, false, false, true],
           [false, false, false, false, false, false, false, false, true],
           [false, false, false, false, false, false, false, false, false]]).map Prod.fst)
      = risingEdges ({ initState with warframeActive := true } : SysState).lastMacroPressed
          ([[false, false, false, false, false, false, false, false, true],
            [false, false, false, false, false, false, false, false, true],
            [false, false, false, false, false, false, false, false, false]].map
            (macroPressedOf SharedConfig.defaultConfig.to_keybinds))
    ∧ fallingEdges ({ initState with warframeActive := true } : SysState).running
        ((pollTrace SharedConfig.defaultConfig.to_keybinds
          { initState with warframeActive := true }
          [[false, false, false, false, false, false, false, false, true],
           [false, false, false, false, false, false, false, false, true],
           [false, false, false, false, false, false, false, false, false]]).map Prod.fst)
      = fallingEdges ({ initState with warframeActive := true } : SysState).lastMacroPressed
          ([[false, false, false, false, false, false, false, false, true],
            [false, false, false, false, false, false, false, false, true],
            [false, false, false, false, false, false, false, false, false]].map
            (macroPressedOf SharedConfig.defaultConfig.to_keybinds))
    ∧ countTrue ((pollTrace SharedConfig.defaultConfig.to_keybinds
          { initState with warframeActive := true }
          [[false, false, false, false, false, false, false, false, true],
           [false, false, false, false, false, false, false, false, true],
           [false, false, false, false, false, false, false, false, false]]).map Prod.snd)
      = risingEdges ({ initState with warframeActive := true } : SysState).lastMacroPressed
          ([[false, false, false, false, false, false, false, false, true],
            [false, false, false, false, false, false, false, false, true],
            [false, false, false, false, false, false, false, false, false]].map
            (macroPressedOf SharedConfig.defaultConfig.to_keybinds)) :=
  c4_one_edge_per_press SharedConfig.defaultConfig.to_keybinds
    { initState with warframeActive := true }
    [[false, false, false, false, false, false, false, false, true],
     [false, false, false, false, false, false, false, false, true],
     [false, false, false, false, false, false, false, false, false]]
    rfl rfl rfl

-- ===========================================================================
-- Claim C1
-- ===========================================================================

-- A running stream that is true at the entry load (index 0) and false at
-- every later load.
def runOnceStream : Nat → Bool := fun t => t == 0

-- Concrete sequence parameters: the default bindings with the default
-- timing figures expressed in nanoseconds (1100/160 ms double jump, 25 ms
-- aim-melee, 50 ms melee hold, 113 ms emote preparation, 1 ms click delay,
-- 50 ms end delay, 1 ms loop delay, 230 ms rapid-fire window).
def cexParams : SeqParams :=
  { keys := PrecomputedKeys.from_keybinds SharedConfig.defaultConfig.to_keybinds
    aim_button := button_from_index SharedConfig.defaultConfig.to_keybinds.aim
    fire_button := button_from_index SharedConfig.defaultConfig.to_keybinds.fire
    double_jump_delay := 6875000
    aim_melee_delay := 25000000
    melee_hold_time := 50000000
    emote_prep_delay := 113000000
    rapid_fire_click_delay := 1000000
    sequence_end_delay := 50000000
    loop_delay := 1000000
    rapid_fire_duration_ms := 230 }

/-- C1 counterexample: the claim says every stage begins only when running is
still true, with a false value skipping all remaining stages.  With the flag
true at the entry load and false at every load thereafter (runOnceStream is
false from index 1 on), the aim+melee stage still begins: its aim-button
press is emitted.  The stage gating claimed for stages 2-4 does not exist in
execute_contagion_sequence. -/
theorem c1_counterexample :
    runOnceStream 0 = true ∧ runOnceStream 1 = false
    ∧ Ev.btnPress cexParams.aim_button
        ∈ (execute_contagion_sequence runOnceStream cexParams 0).1 := by
  decide

lemma rapidFireAux_stop (running : Nat → Bool) (fire : EButton)
    (d limitMs fuel t e : Nat) (h : running t = false) :
    rapidFireAux running fire d limitMs (fuel + 1) t e = ([], t + 1) := by
  simp [rapidFireAux, h]

/-- C1 (amended): running is checked at sequence entry (a false value skips
the whole iteration), before every rapid-fire click (a false value ends the
burst at once), and before the end-of-sequence delay (a false value skips
it); the double-jump, aim+melee, emote-preparation and emote-tap stages are
not individually gated — once the entry check passes they run to completion,
so a flag that goes false right after entry still produces every stage 1-4
event, with only the rapid-fire clicks and the end delay suppressed. -/
theorem c1_checkpoint_gating :
    (∀ (running : Nat → Bool) (p : SeqParams) (t : Nat), running t = false →
        execute_contagion_sequence running p t = ([], t + 1))
    ∧ (∀ (running : Nat → Bool) (fire : EButton) (d limitMs fuel t e : Nat),
        running t = false →
        rapidFireAux running fire d limitMs (fuel + 1) t e = ([], t + 1))
    ∧ (∀ (running : Nat → Bool) (p : SeqParams) (t : Nat),
        running t = true → running (t + 1) = false → running (t + 2) = false →
        execute_contagion_sequence running p t = (stageOneToFour p, t + 3)) := by
  refine ⟨?_, ?_, ?_⟩
  · intro running p t h
    simp [execute_contagion_sequence, h]
  · intro running fire d limitMs fuel t e h
    exact rapidFireAux_stop running fire d limitMs fuel t e h
  · intro running p t h0 h1 h2
    have hfuel : p.rapid_fire_duration_ms * 1000000 + 2
        = (p.rapid_fire_duration_ms * 1000000 + 1) + 1 := by omega
    have hb : rapidFireAux running p.fire_button p.rapid_fire_click_delay
        p.rapid_fire_duration_ms (p.rapid_fire_duration_ms * 1000000 + 2) (t + 1) 0
        = ([], t + 2) := by
      rw [hfuel, rapidFireAux_stop running p.fire_button p.rapid_fire_click_delay
        p.rapid_fire_duration_ms (p.rapid_fire_duration_ms * 1000000 + 1) (t + 1) 0 h1]
    simp [execute_contagion_sequence, h0, hb, h2]

/-- C1 witness for the amended claim: a flag that is false at the entry load
produces no events; the concrete runOnceStream (true only at load 0) yields
exactly the nineteen stage 1-4 events and consumes three loads. -/
theorem c1_checkpoint_gating_witness :
    (fun _ => false : Nat → Bool) 0 = false
    ∧ execute_contagion_sequence (fun _ => false) cexParams 0 = ([], 1)
    ∧ rapidFireAux (fun _ => false) EButton.left 1000000 230 (5 + 1) 4 0 = ([], 5)
    ∧ runOnceStream 0 = true ∧ runOnceStream 1 = false ∧ runOnceStream 2 = false
    ∧ execute_contagion_sequence runOnceStream cexParams 0 = (stageOneToFour cexParams, 3) :=
  ⟨rfl,
   c1_checkpoint_gating.1 (fun _ => false) cexParams 0 rfl,
   c1_checkpoint_gating.2.1 (fun _ => false) EButton.left 1000000 230 5 4 0 rfl,
   rfl, rfl, rfl,
   c1_checkpoint_gating.2.2 runOnceStream cexParams 0 rfl rfl rfl⟩

-- ===========================================================================
-- Claim C3
-- ===========================================================================

lemma pow160_13_le : (160:ℝ)^(13:ℕ) ≤ (2.7182818283:ℝ)^(66:ℕ) := by norm_num

lemma pow160_52_gt : (2.7182818286:ℝ)^(263:ℕ) < (160:ℝ)^(52:ℕ) := by norm_num

lemma log160_le : Real.log 160 ≤ 66 / 13 := by
  rw [Real.log_le_iff_le_exp (by norm_num : (0:ℝ) < 160)]
  have h13 : Real.exp ((66:ℝ) / 13) ^ (13:ℕ) = Real.exp 66 := by
    rw [← Real.exp_nat_mul]
    norm_num
  have hexp66 : Real.exp 66 = Real.exp 1 ^ (66:ℕ) := by
    rw [← Real.exp_nat_mul]
    norm_num
  have hbase : (2.7182818283:ℝ) ^ (66:ℕ) ≤ Real.exp 1 ^ (66:ℕ) :=
    pow_le_pow_left₀ (by norm_num) (le_of_lt Real.exp_one_gt_d9) 66
  have h2 : (160:ℝ)^(13:ℕ) ≤ Real.exp ((66:ℝ)/13) ^ (13:ℕ) := by
    rw [h13, hexp66]
    exact le_trans pow160_13_le hbase
  exact le_of_pow_le_pow_left₀ (by norm_num) (Real.exp_nonneg _) h2

lemma log160_gt : (263:ℝ) / 52 < Real.log 160 := by
  rw [Real.lt_log_iff_exp_lt (by norm_num : (0:ℝ) < 160)]
  have h52 : Real.exp ((263:ℝ) / 52) ^ (52:ℕ) = Real.exp 263 := by
    rw [← Real.exp_nat_mul]
    norm_num
  have hexp263 : Real.exp 263 = Real.exp 1 ^ (263:ℕ) := by
    rw [← Real.exp_nat_mul]
    norm_num
  have hbase : Real.exp 1 ^ (263:ℕ) < (2.7182818286:ℝ) ^ (263:ℕ) :=
    pow_lt_pow_left₀ Real.exp_one_lt_d9 (Real.exp_nonneg _) (by norm_num)
  have h2 : Real.exp ((263:ℝ)/52) ^ (52:ℕ) < (160:ℝ)^(52:ℕ) := by
    rw [h52, hexp263]
    exact lt_trans hbase pow160_52_gt
  exact lt_of_pow_lt_pow_left₀ 52 (by norm_num) h2

lemma emote_floor_160 : ⌊max (-26 * Real.log 160 + 245) 0⌋ = 113 := by
  have h1 := log160_le
  have h2 := log160_gt
  have hub : -26 * Real.log 160 + 245 < 113.5 := by nlinarith
  have hmax : max (-26 * Real.log 160 + 245) 0 = -26 * Real.log 160 + 245 :=
    max_eq_left (by nlinarith)
  rw [hmax, Int.floor_eq_iff]
  constructor
  · push_cast
    nlinarith
  · push_cast
    nlinarith

lemma emote_round_160 : round (-26 * Real.log 160 + 245) = 113 := by
  have h1 := log160_le
  have h2 := log160_gt
  rw [round_eq, Int.floor_eq_iff]
  constructor
  · push_cast
    nlinarith
  · push_cast
    nlinarith

/-- C3: in formula mode emote_preparation_delay is the millisecond value
max(0, −26·ln(fps) + 245) (truncated by the u64 cast); at fps = 160 it
equals max(0, round(−26·ln 160 + 245)) ms; it is non-increasing as fps
increases; the max clamp floors it at 0 once the formula goes non-positive;
and in manual mode it is the configured manual millisecond value. -/
theorem c3_emote_preparation_delay :
    (∀ c : SharedConfig, c.use_emote_formula = true →
        c.emote_preparation_delay
          = (Int.floor (max (-26 * Real.log c.fps + 245) 0)).toNat)
    ∧ (∀ c : SharedConfig, c.use_emote_formula = true → c.fps = 160 →
        c.emote_preparation_delay
          = (max 0 (round (-26 * Real.log 160 + 245))).toNat)
    ∧ (∀ c c' : SharedConfig, c.use_emote_formula = true →
        c'.use_emote_formula = true → 0 < c.fps → c.fps ≤ c'.fps →
        c'.emote_preparation_delay ≤ c.emote_preparation_delay)
    ∧ (∀ c : SharedConfig, c.use_emote_formula = true →
        -26 * Real.log c.fps + 245 ≤ 0 → c.emote_preparation_delay = 0)
    ∧ (∀ c : SharedConfig, c.use_emote_formula = false →
        c.emote_preparation_delay = c.emote_preparation_delay_manual_ms) := by
  refine ⟨?_, ?_, ?_, ?_, ?_⟩
  · intro c h
    simp [SharedConfig.emote_preparation_delay, h]
  · intro c h hfps
    rw [SharedConfig.emote_preparation_delay, if_pos h, hfps, emote_floor_160,
      emote_round_160]
    rfl
  · intro c c' h h' hpos hle
    rw [SharedConfig.emote_preparation_delay, SharedConfig.emote_preparation_delay,
      if_pos h, if_pos h']
    have hlog : Real.log c.fps ≤ Real.log c'.fps := Real.log_le_log hpos hle
    have hval : -26 * Real.log c'.fps + 245 ≤ -26 * Real.log c.fps + 245 := by
      nlinarith
    exact Int.toNat_le_toNat (Int.floor_le_floor (max_le_max hval le_rfl))
  · intro c h hneg
    rw [SharedConfig.emote_preparation_delay, if_pos h]
    have hmax : max (-26 * Real.log c.fps + 245) 0 = 0 := max_eq_right hneg
    rw [hmax]
    simp
  · intro c h
    simp [SharedConfig.emote_preparation_delay, h]

/-- C3 witness: the default configuration is in formula mode with fps = 160,
where the delay equals max(0, round(−26·ln 160 + 245)) ms; raising fps to 320
does not increase the delay; and the manual-mode variant returns its manual
value of 100 ms. -/
theorem c3_emote_preparation_delay_witness :
    SharedConfig.defaultConfig.emote_preparation_delay
      = (max 0 (round (-26 * Real.log 160 + 245))).toNat
    ∧ ({ SharedConfig.defaultConfig with fps := 320 } : SharedConfig).emote_preparation_delay
        ≤ SharedConfig.defaultConfig.emote_preparation_delay
    ∧ ({ SharedConfig.defaultConfig with use_emote_formula := false } : SharedConfig).emote_preparation_delay
        = 100 :=
  ⟨c3_emote_preparation_delay.2.1 SharedConfig.defaultConfig rfl rfl,
   c3_emote_preparation_delay.2.2.1 SharedConfig.defaultConfig
     { SharedConfig.defaultConfig with fps := 320 } rfl rfl
     (by norm_num [SharedConfig.defaultConfig])
     (by norm_num [SharedConfig.defaultConfig]),
   c3_emote_preparation_delay.2.2.2.2
     { SharedConfig.defaultConfig with use_emote_formula := false } rfl⟩

-- ===========================================================================
-- Claim C10
-- ===========================================================================

-- The keycodes given explicit arms in keycode_to_string (and matching table
-- entries in keycode_from_string): Space, A-Z, the digit keys, F1-F12, Dot.
def handledKeycodes : List Keycode :=
  [.Space,
   .A, .B, .C, .D, .E, .F, .G, .H, .I, .J, .K, .L, .M,
   .N, .O, .P, .Q, .R, .S, .T, .U, .V, .W, .X, .Y, .Z,
   .Key0, .Key1, .Key2, .Key3, .Key4, .Key5, .Key6, .Key7, .Key8, .Key9,
   .F1, .F2, .F3, .F4, .F5, .F6, .F7, .F8, .F9, .F10, .F11, .F12,
   .Dot]

/-- C10: for every keycode in the explicitly handled set (Space, A-Z, the
digit keys, F1-F12, Dot) the round trip keycode_from_string ∘
keycode_to_string is the identity; every modelled keycode outside that set
round-trips to the fixed fallback Keycode.E instead. -/
theorem c10_round_trip :
    ∀ k : Keycode, keycode_from_string (keycode_to_string k)
      = (if k ∈ handledKeycodes then k else Keycode.E) := by
  decide

-- ===========================================================================
-- Claim C9
-- ===========================================================================

-- The 52 uppercase strings that the lookup table in keycode_from_string
-- matches (the dot arm has the three spellings ".", "PERIOD", "DOT").
def upperTableMember (u : List Char) : Bool :=
  decide (u = "SPACE".toList)
  || decide (u = "A".toList)
  || decide (u = "B".toList)
  || decide (u = "C".toList)
  || decide (u = "D".toList)
  || decide (u = "E".toList)
  || decide (u = "F".toList)
  || decide (u = "G".toList)
  || decide (u = "H".toList)
  || decide (u = "I".toList)
  || decide (u = "J".toList)
  || decide (u = "K".toList)
  || decide (u = "L".toList)
  || decide (u = "M".toList)
  || decide (u = "N".toList)
  || decide (u = "O".toList)
  || decide (u = "P".toList)
  || decide (u = "Q".toList)
  || decide (u = "R".toList)
  || decide (u = "S".toList)
  || decide (u = "T".toList)
  || decide (u = "U".toList)
  || decide (u = "V".toList)
  || decide (u = "W".toList)
  || decide (u = "X".toList)
  || decide (u = "Y".toList)
  || decide (u = "Z".toList)
  || decide (u = "0".toList)
  || decide (u = "1".toList)
  || decide (u = "2".toList)
  || decide (u = "3".toList)
  || decide (u = "4".toList)
  || decide (u = "5".toList)
  || decide (u = "6".toList)
  || decide (u = "7".toList)
  || decide (u = "8".toList)
  || decide (u = "9".toList)
  || decide (u = "F1".toList)
  || decide (u = "F2".toList)
  || decide (u = "F3".toList)
  || decide (u = "F4".toList)
  || decide (u = "F5".toList)
  || decide (u = "F6".toList)
  || decide (u = "F7".toList)
  || decide (u = "F8".toList)
  || decide (u = "F9".toList)
  || decide (u = "F10".toList)
  || decide (u = "F11".toList)
  || decide (u = "F12".toList)
  || decide (u = ".".toList)
  || decide (u = "PERIOD".toList)
  || decide (u = "DOT".toList)

lemma keycode_from_string_fuel_congr (f : Nat) (s t : List Char)
    (h : s.map asciiUpper = t.map asciiUpper) :
    keycode_from_string_fuel f s = keycode_from_string_fuel f t := by
  cases f with
  | zero => rfl
  | succ g =>
    simp only [keycode_from_string_fuel]
    rw [h]

lemma asciiUpper_cases (c : Char) :
    asciiUpper c = c ∨ asciiUpper c ∈
      ['A','B','C','D','E','F','G','H','I','J','K','L','M',
       'N','O','P','Q','R','S','T','U','V','W','X','Y','Z'] := by
  unfold asciiUpper
  split
  all_goals first | exact Or.inl rfl | exact Or.inr (by decide)

lemma asciiUpper_idem (c : Char) : asciiUpper (asciiUpper c) = asciiUpper c := by
  rcases asciiUpper_cases c with h | h
  · rw [h]
    exact h
  · simp only [List.mem_cons, List.not_mem_nil, or_false] at h
    rcases h with h|h|h|h|h|h|h|h|h|h|h|h|h|h|h|h|h|h|h|h|h|h|h|h|h|h <;>
      (rw [h]; decide)

lemma map_asciiUpper_idem (l : List Char) :
    (l.map asciiUpper).map asciiUpper = l.map asciiUpper := by
  induction l with
  | nil => rfl
  | cons c rest ih => simp [asciiUpper_idem, ih]

lemma upperTableMember_eq_false_of_long (u : List Char) (h : 6 < u.length) :
    upperTableMember u = false := by
  simp only [upperTableMember, Bool.or_eq_false_iff, decide_eq_false_iff_not]
  repeat' apply And.intro
  all_goals intro he
  all_goals rw [he] at h
  all_goals exact absurd h (by decide)

set_option maxHeartbeats 2000000 in
lemma keycode_from_string_fuel_not_table (f : Nat) (s : List Char)
    (h : upperTableMember (s.map asciiUpper) = false) :
    keycode_from_string_fuel (f + 1) s =
      (if ("KEYCODE::".toList).isPrefixOf (s.map asciiUpper) then
        keycode_from_string_fuel f ((s.map asciiUpper).drop 9)
      else Keycode.E) := by
  simp only [upperTableMember, Bool.or_eq_false_iff, decide_eq_false_iff_not] at h
  obtain ⟨⟨⟨⟨⟨⟨⟨⟨⟨⟨⟨⟨⟨⟨⟨⟨⟨⟨⟨⟨⟨⟨⟨⟨⟨⟨⟨⟨⟨⟨⟨⟨⟨⟨⟨⟨⟨⟨⟨⟨⟨⟨⟨⟨⟨⟨⟨⟨⟨⟨⟨h1, h2⟩, h3⟩, h4⟩, h5⟩, h6⟩, h7⟩, h8⟩, h9⟩, h10⟩, h11⟩, h12⟩, h13⟩, h14⟩, h15⟩, h16⟩, h17⟩, h18⟩, h19⟩, h20⟩, h21⟩, h22⟩, h23⟩, h24⟩, h25⟩, h26⟩, h27⟩, h28⟩, h29⟩, h30⟩, h31⟩, h32⟩, h33⟩, h34⟩, h35⟩, h36⟩, h37⟩, h38⟩, h39⟩, h40⟩, h41⟩, h42⟩, h43⟩, h44⟩, h45⟩, h46⟩, h47⟩, h48⟩, h49⟩, h50⟩, h51⟩, h52⟩ := h
  simp only [keycode_from_string_fuel]
  rw [if_neg h1, if_neg h2, if_neg h3, if_neg h4, if_neg h5, if_neg h6, if_neg h7, if_neg h8, if_neg h9, if_neg h10, if_neg h11, if_neg h12, if_neg h13, if_neg h14, if_neg h15, if_neg h16, if_neg h17, if_neg h18, if_neg h19, if_neg h20, if_neg h21, if_neg h22, if_neg h23, if_neg h24, if_neg h25, if_neg h26, if_neg h27, if_neg h28, if_neg h29, if_neg h30, if_neg h31, if_neg h32, if_neg h33, if_neg h34, if_neg h35, if_neg h36, if_neg h37, if_neg h38, if_neg h39, if_neg h40, if_neg h41, if_neg h42, if_neg h43, if_neg h44, if_neg h45, if_neg h46, if_neg h47, if_neg h48, if_neg h49, if_neg (not_or.mpr ⟨h50, not_or.mpr ⟨h51, h52⟩⟩)]

set_option maxHeartbeats 2000000 in
lemma keycode_from_string_fuel_table_any (f g : Nat) (s : List Char)
    (h : upperTableMember (s.map asciiUpper) = true) :
    keycode_from_string_fuel (f + 1) s = keycode_from_string_fuel (g + 1) s := by
  simp only [upperTableMember, Bool.or_eq_true, decide_eq_true_eq] at h
  rcases h with (((((((((((((((((((((((((((((((((((((((((((((((((((h | h) | h) | h) | h) | h) | h) | h) | h) | h) | h) | h) | h) | h) | h) | h) | h) | h) | h) | h) | h) | h) | h) | h) | h) | h) | h) | h) | h) | h) | h) | h) | h) | h) | h) | h) | h) | h) | h) | h) | h) | h) | h) | h) | h) | h) | h) | h) | h) | h) | h) | h)
  all_goals simp only [keycode_from_string_fuel]
  all_goals rw [h]
  all_goals rfl

lemma keycode_from_string_fuel_nil (f : Nat) :
    keycode_from_string_fuel f [] = Keycode.E := by
  cases f with
  | zero => rfl
  | succ g => rfl

set_option maxHeartbeats 1000000 in
lemma keycode_from_string_fuel_stable :
    ∀ (n f g : Nat) (s : List Char), s.length ≤ n → s.length ≤ f → s.length ≤ g →
      keycode_from_string_fuel f s = keycode_from_string_fuel g s := by
  intro n
  induction n with
  | zero =>
    intro f g s hs _ _
    have hnil : s = [] := List.length_eq_zero.mp (Nat.le_zero.mp hs)
    subst hnil
    rw [keycode_from_string_fuel_nil, keycode_from_string_fuel_nil]
  | succ m ih =>
    intro f g s hsn hsf hsg
    rcases s with _ | ⟨c, rest⟩
    · rw [keycode_from_string_fuel_nil, keycode_from_string_fuel_nil]
    · rcases f with _ | f'
      · simp at hsf
      · rcases g with _ | g'
        · simp at hsg
        · cases hmem : upperTableMember ((c :: rest).map asciiUpper) with
          | true => exact keycode_from_string_fuel_table_any f' g' _ hmem
          | false =>
            rw [keycode_from_string_fuel_not_table f' _ hmem,
              keycode_from_string_fuel_not_table g' _ hmem]
            by_cases hp : ("KEYCODE::".toList).isPrefixOf ((c :: rest).map asciiUpper) = true
            · rw [if_pos hp, if_pos hp]
              have h9 : 9 ≤ (c :: rest).length := by
                have hle := (List.isPrefixOf_iff_prefix.mp hp).length_le
                simpa [List.length_map] using hle
              apply ih
              · simp only [List.length_drop, List.length_map]
                simp only [List.length_cons] at hsn h9 ⊢
                omega
              · simp only [List.length_drop, List.length_map]
                simp only [List.length_cons] at hsf h9 ⊢
                omega
              · simp only [List.length_drop, List.length_map]
                simp only [List.length_cons] at hsg h9 ⊢
                omega
            · rw [if_neg hp, if_neg hp]

lemma keycode_from_string_fuel_eq (f : Nat) (s : List Char) (h : s.length ≤ f) :
    keycode_from_string_fuel f s = keycode_from_string s :=
  keycode_from_string_fuel_stable f f s.length s h h le_rfl

/-- C9: keycode_from_string is total by construction and never errors; its
result depends only on the ASCII-uppercased input, so it is case-insensitive;
any string whose uppercasing is outside the 52-entry table and carries no
"Keycode::" prefix resolves to the fixed fallback Keycode.E; and a
"Keycode::" prefix is stripped before the lookup is retried, so a malformed
key-name silently yields the fallback binding rather than an error. -/
theorem c9_from_string_case_insensitive_fallback :
    (∀ s t : List Char, s.map asciiUpper = t.map asciiUpper →
        keycode_from_string s = keycode_from_string t)
    ∧ (∀ s : List Char, upperTableMember (s.map asciiUpper) = false →
        ("KEYCODE::".toList).isPrefixOf (s.map asciiUpper) = false →
        keycode_from_string s = Keycode.E)
    ∧ (∀ s : List Char,
        keycode_from_string ("Keycode::".toList ++ s) = keycode_from_string s) := by
  refine ⟨?_, ?_, ?_⟩
  · intro s t h
    have hlen : s.length = t.length := by
      have hl := congrArg List.length h
      simpa [List.length_map] using hl
    show keycode_from_string_fuel s.length s = keycode_from_string_fuel t.length t
    rw [hlen]
    exact keycode_from_string_fuel_congr t.length s t h
  · intro s hmem hpre
    rcases s with _ | ⟨c, rest⟩
    · rfl
    · show keycode_from_string_fuel (c :: rest).length (c :: rest) = Keycode.E
      rw [List.length_cons, keycode_from_string_fuel_not_table rest.length _ hmem,
        hpre]
      simp
  · intro s
    have hkc9 : ("Keycode::".toList).length = 9 := by decide
    have hmap : ("Keycode::".toList ++ s).map asciiUpper
        = "KEYCODE::".toList ++ s.map asciiUpper := by
      rw [List.map_append]
      congr 1
    have hlen : ("Keycode::".toList ++ s).length = s.length + 9 := by
      rw [List.length_append, hkc9]
      omega
    have hmem : upperTableMember (("Keycode::".toList ++ s).map asciiUpper) = false := by
      apply upperTableMember_eq_false_of_long
      rw [List.length_map, hlen]
      omega
    show keycode_from_string_fuel ("Keycode::".toList ++ s).length
        ("Keycode::".toList ++ s) = keycode_from_string s
    rw [hlen]
    have hsucc : s.length + 9 = (s.length + 8) + 1 := rfl
    rw [hsucc, keycode_from_string_fuel_not_table (s.length + 8) _ hmem, hmap]
    have hpre : ("KEYCODE::".toList).isPrefixOf
        ("KEYCODE::".toList ++ s.map asciiUpper) = true :=
      List.isPrefixOf_iff_prefix.mpr (List.prefix_append _ _)
    rw [if_pos hpre]
    have hup9 : ("KEYCODE::".toList).length = 9 := by decide
    have hdrop : ("KEYCODE::".toList ++ s.map asciiUpper).drop 9 = s.map asciiUpper := by
      rw [← hup9, List.drop_left]
    rw [hdrop]
    have h1 : keycode_from_string_fuel (s.length + 8) (s.map asciiUpper)
        = keycode_from_string (s.map asciiUpper) :=
      keycode_from_string_fuel_eq _ _ (by rw [List.length_map]; omega)
    rw [h1]
    show keycode_from_string_fuel (s.map asciiUpper).length (s.map asciiUpper)
        = keycode_from_string_fuel s.length s
    rw [List.length_map]
    exact keycode_from_string_fuel_congr s.length (s.map asciiUpper) s
      (map_asciiUpper_idem s)

/-- C9 witness: "space" and "SPACE" resolve identically; the unknown string
"zzz" falls back to Keycode.E; and a "Keycode::" prefix in front of "A" is
stripped before lookup. -/
theorem c9_from_string_case_insensitive_fallback_witness :
    keycode_from_string "space".toList = keycode_from_string "SPACE".toList
    ∧ keycode_from_string "zzz".toList = Keycode.E
    ∧ keycode_from_string ("Keycode::".toList ++ "A".toList)
        = keycode_from_string "A".toList :=
  ⟨c9_from_string_case_insensitive_fallback.1 "space".toList "SPACE".toList
     (by decide),
   c9_from_string_case_insensitive_fallback.2.1 "zzz".toList (by decide) (by decide),
   c9_from_string_case_insensitive_fallback.2.2 "A".toList⟩
